import Mathlib

/-!
# Verification of the LyncFormula task-pane controller

A shallow embedding of `src/excel_addin/taskpane/taskpane.js`, the
client-side controller of an Excel task-pane add-in.  The DOM, the
`fetch` transport, `localStorage` and the Office host object model are
external to the module; they enter the embedding as explicit inputs
(outcome values, key-value state, host-call results), while the
module's own logic (intent routing, history bookkeeping, file
dedup, renderers, settings persistence, the submit flow) is
translated function by function.
-/

namespace LyncFormula

/-! ## String helpers

JavaScript's `String.prototype.includes` is containment of a
contiguous substring; `toLowerCase` is modelled character-wise with
`Char.toLower`. -/

/-- Whether `pat` is an initial segment of `cs`. -/
def startsWithChars : List Char → List Char → Bool
  | [], _ => true
  | _ :: _, [] => false
  | p :: ps, c :: cs => p == c && startsWithChars ps cs

/-- Whether `pat` occurs contiguously in `cs`. -/
def hasSubstrChars (pat : List Char) : List Char → Bool
  | [] => pat.isEmpty
  | c :: cs => startsWithChars pat (c :: cs) || hasSubstrChars pat cs

/-- JS `s.includes(pat)`: substring containment. -/
def includes (s pat : String) : Bool :=
  hasSubstrChars pat.toList s.toList

/-- JS `s.toLowerCase()`, modelled character-wise with `Char.toLower`
(ASCII case folding, which covers every keyword the router tests). -/
def toLowerCase (s : String) : String :=
  String.mk (s.toList.map Char.toLower)

/-! ## Data model -/

/-- One entry of the `selectedFiles` list: `{ name, path }`. -/
structure SelectedFile where
  name : String
  path : String
deriving DecidableEq, Repr

/-! ## Intent router (`determineEndpoint`, taskpane.js lines 231-255)

The JS function reads the module-global `selectedFiles`; the embedding
passes that list explicitly. -/

/-- Source `determineEndpoint(query)`: first-match keyword routing over the
lower-cased query, with the selected-files list deciding between
smart analysis and formula audit. -/
def determineEndpoint (query : String) (selectedFiles : List SelectedFile) : String :=
  let lowerQuery := toLowerCase query
  if includes lowerQuery "audit" || includes lowerQuery "check" || includes lowerQuery "analyze" then
    if selectedFiles.length > 0 || includes lowerQuery "file" then
      "/smart_analysis"
    else
      "/audit_formulas"
  else if includes lowerQuery "explain" || includes lowerQuery "describe" then
    "/explain_sheet"
  else if includes lowerQuery "consolidate" || includes lowerQuery "merge" || includes lowerQuery "combine" then
    "/consolidate_files"
  else if includes lowerQuery "fix" || includes lowerQuery "repair" then
    "/apply_fixes"
  else
    "/natural_language"

/-- The router as the spec words it (section 4.2): classify by
first-match case-insensitive keyword substring search in the fixed
priority order audit/check/analyze → (smart-analysis if files
selected or "file" mentioned, else audit-formulas); explain/describe
→ explain-sheet; consolidate/merge/combine → consolidate-files;
fix/repair → apply-fixes; else the natural-language endpoint.
Written from the spec, to be compared with `determineEndpoint`. -/
def routeSpec (text : String) (files : List SelectedFile) : String :=
  let t := toLowerCase text
  if includes t "audit" || includes t "check" || includes t "analyze" then
    if files ≠ [] || includes t "file" then "/smart_analysis" else "/audit_formulas"
  else if includes t "explain" || includes t "describe" then "/explain_sheet"
  else if includes t "consolidate" || includes t "merge" || includes t "combine" then "/consolidate_files"
  else if includes t "fix" || includes t "repair" then "/apply_fixes"
  else "/natural_language"

/-! ## Service response shapes

`POST` responses are JSON objects `{ success, error?, ...shape
fields }`; each optional shape field is `Option` (JS property absent
→ `none`).  Only the audit shape's payload is structured further,
because the rendering claims concern it; the other payloads stay
opaque. -/

/-- One element of an audit response's `issues` array. -/
structure AuditIssue where
  title : String
  severity : String
  description : String
  cell_address : String
  suggested_fix : String
deriving DecidableEq, Repr

/-- Shape of `audit_summary.severity_breakdown`. -/
structure SeverityBreakdown where
  high : Nat
  medium : Nat
  low : Nat
deriving DecidableEq, Repr

/-- Shape of `audit_summary`: both fields may be absent in the JSON. -/
structure AuditSummary where
  total_issues : Option Nat
  severity_breakdown : Option SeverityBreakdown
deriving DecidableEq, Repr

/-- A main-endpoint response body.  `success`/`error` drive the
submit flow; the remaining fields are the shape discriminators of
`showResults`. -/
structure ServiceResult where
  success : Bool
  error : Option String
  explanations : Option (List String)
  issues : Option (List AuditIssue)
  audit_summary : Option AuditSummary
  analysis_results : Option (List String)
  consolidated_file : Option String
  operation_type : Option String
deriving DecidableEq, Repr

/-! ## Result renderers (taskpane.js lines 315-512)

DOM markup is abstracted to a list of rendered elements; the audit
branch (the subject of the rendering claims) is kept in full, and the
other branches are abstracted to opaque panel markers. -/

/-- An element stamped into the results container. -/
inductive RenderedElem where
  | header (text : String)
  | summaryBox (totalIssues high medium low : Nat)
  | issueItem (cssClass : String) (issue : AuditIssue)
  | otherPanel (kind : String)
deriving DecidableEq, Repr

/-- The CSS class of an audit issue item: `result-item` plus a
severity-based modifier (`high` → error, `medium` → warning, else
success). -/
def issueClass (severity : String) : String :=
  if severity == "high" then "result-item result-error"
  else if severity == "medium" then "result-item result-warning"
  else "result-item result-success"

/-- Source `showAuditResults(result, container)`: a heading, a summary box
reading the counts of `audit_summary` (each `|| 0` on an absent field),
then — when the issues array is non-empty — one item per issue of
`issues.slice(0, 5)`, styled by severity. -/
def showAuditResults (audit_summary : Option AuditSummary) (issues : List AuditIssue) :
    List RenderedElem :=
  let total := (audit_summary.bind AuditSummary.total_issues).getD 0
  let bd := audit_summary.bind AuditSummary.severity_breakdown
  [RenderedElem.header "Formula Audit Results",
   RenderedElem.summaryBox total ((bd.map SeverityBreakdown.high).getD 0)
     ((bd.map SeverityBreakdown.medium).getD 0) ((bd.map SeverityBreakdown.low).getD 0)] ++
  (if issues.length > 0 then
    (issues.take 5).map (fun issue => RenderedElem.issueItem (issueClass issue.severity) issue)
  else [])

/-- Source `showResults(result, originalQuery)`: dispatch on the first
present shape field, in source order; the non-audit branches are
abstracted to markers. -/
def showResults (result : ServiceResult) : List RenderedElem :=
  match result.explanations with
  | some _ => [RenderedElem.otherPanel "explanations"]
  | none =>
    match result.issues with
    | some issues => showAuditResults result.audit_summary issues
    | none =>
      match result.analysis_results with
      | some _ => [RenderedElem.otherPanel "analysis_results"]
      | none =>
        match result.consolidated_file with
        | some _ => [RenderedElem.otherPanel "consolidated_file"]
        | none =>
          match result.operation_type with
          | some _ => [RenderedElem.otherPanel "operation_type"]
          | none => [RenderedElem.otherPanel "generic"]

/-! ## Operation history (taskpane.js lines 589-653) -/

/-- One history entry: `{id: Date.now(), query, result, timestamp:
new Date().toLocaleString()}`. -/
structure HistoryItem where
  id : Nat
  query : String
  result : ServiceResult
  timestamp : String
deriving DecidableEq, Repr

/-- Source `addToHistory(query, result)`: unshift the new entry, then cap
the list at the 20 most recent (`slice(0, 20)`).  The clock reads
(`Date.now()`, the locale timestamp) are explicit inputs. -/
def addToHistory (now : Nat) (timestamp : String) (query : String) (result : ServiceResult)
    (operationHistory : List HistoryItem) : List HistoryItem :=
  let historyItem : HistoryItem := ⟨now, query, result, timestamp⟩
  let h := historyItem :: operationHistory
  if h.length > 20 then h.take 20 else h

/-- A sequence of `addToHistory` calls applied to the initial empty
`operationHistory`, each list element carrying the arguments of one call
(packaged as the entry it creates). -/
def runHistory (adds : List HistoryItem) : List HistoryItem :=
  adds.foldl (fun h a => addToHistory a.id a.timestamp a.query a.result h) []

/-! ## File selection (taskpane.js lines 545-584) -/

/-- The fixed list the mocked file browser offers. -/
def mockFiles : List SelectedFile :=
  [⟨"Q1_Sales.xlsx", "C:\\Reports\\Q1_Sales.xlsx"⟩,
   ⟨"Q2_Sales.xlsx", "C:\\Reports\\Q2_Sales.xlsx"⟩,
   ⟨"Budget_2024.xlsx", "C:\\Finance\\Budget_2024.xlsx"⟩]

/-- The forEach body of `browseFiles`: push `file` unless an entry
with the same path is already selected (`selectedFiles.find`). -/
def addFileIfNew (selectedFiles : List SelectedFile) (file : SelectedFile) : List SelectedFile :=
  if selectedFiles.any (fun f => f.path == file.path) then selectedFiles
  else selectedFiles ++ [file]

/-- Source `browseFiles()`: offer `mockFiles`, adding each unseen path. -/
def browseFiles (selectedFiles : List SelectedFile) : List SelectedFile :=
  mockFiles.foldl addFileIfNew selectedFiles

/-- Source `removeFile(index)`: `selectedFiles.splice(index, 1)`. -/
def removeFile (selectedFiles : List SelectedFile) (index : Nat) : List SelectedFile :=
  selectedFiles.eraseIdx index

/-- A user action on the selected-files list. -/
inductive FileEvent where
  | browse
  | remove (index : Nat)
deriving DecidableEq, Repr

/-- Apply one file-selection action. -/
def fileStep (selectedFiles : List SelectedFile) : FileEvent → List SelectedFile
  | .browse => browseFiles selectedFiles
  | .remove index => removeFile selectedFiles index

/-- A sequence of file-selection actions from the initial empty
`selectedFiles`. -/
def runFileEvents (events : List FileEvent) : List SelectedFile :=
  events.foldl fileStep []

/-! ## Input trimming

JS `s.trim()` strips leading and trailing whitespace; modelled over
the character list so the kernel can evaluate it. -/

/-- A whitespace character as JS `trim` treats the inputs at hand. -/
def isWsChar (c : Char) : Bool :=
  c == ' ' || c == '\t' || c == '\n' || c == '\r'

/-- JS `s.trim()`. -/
def trim (s : String) : String :=
  String.mk (((s.toList.dropWhile isWsChar).reverse.dropWhile isWsChar).reverse)

/-! ## Connection monitor (taskpane.js lines 120-163)

`checkServiceConnection` runs at startup, every 30 s, and after a
settings save; the outcome of the `fetch` of `GET /health` is the
explicit input. -/

/-- The module-global `connectionStatus`. -/
inductive ConnStatus where
  | connecting
  | connected
  | error
deriving DecidableEq, BEq, Repr

/-- The outcome of the health fetch: `ok` carries the parsed
`{service, version}` body; a non-2xx response or a network error both
land in the `catch`. -/
inductive HealthOutcome where
  | ok (service : String) (version : String)
  | httpError (status : Nat)
  | networkError (message : String)
deriving DecidableEq, Repr

/-- The UI state the connection monitor and `validateInput` touch. -/
structure UIConn where
  connectionStatus : ConnStatus
  statusText : String
  submitDisabled : Bool
  inputValue : String
deriving DecidableEq, Repr

/-- Source `validateInput()`: `submitBtn.disabled = !hasInput ||
!isConnected` where `hasInput` is the trimmed input being non-empty
and `isConnected` compares `connectionStatus` with the connected literal. -/
def validateInput (st : UIConn) : UIConn :=
  let hasInput := (trim st.inputValue).length > 0
  let isConnected := st.connectionStatus == ConnStatus.connected
  { st with submitDisabled := !hasInput || !isConnected }

/-- Source `checkServiceConnection()`: a 2xx response sets the status to
connected with text `Connected to ${service} v${version}` and re-runs
`validateInput`; any failure sets the status to error, a fixed
unavailable message, and disables the submit button. -/
def checkServiceConnection (st : UIConn) (outcome : HealthOutcome) : UIConn :=
  match outcome with
  | .ok service version =>
    validateInput { st with
      connectionStatus := ConnStatus.connected,
      statusText := "Connected to " ++ service ++ " v" ++ version }
  | .httpError _ =>
    { st with
      connectionStatus := ConnStatus.error,
      statusText := "Service unavailable - Check if Python service is running",
      submitDisabled := true }
  | .networkError _ =>
    { st with
      connectionStatus := ConnStatus.error,
      statusText := "Service unavailable - Check if Python service is running",
      submitDisabled := true }

/-! ## Excel context snapshot (taskpane.js lines 260-302)

The host object model's reads are the explicit input: one combined
result for the worksheet-name/used-range loads (they share a single
`context.sync()`), one for the selection lookup. -/

/-- The result of a host call: success or a thrown error message. -/
inductive HostResult (α : Type) where
  | ok (value : α)
  | failed (message : String)
deriving DecidableEq, Repr

/-- What the first `context.sync()` loads. -/
structure WorksheetInfo where
  name : String
  usedRangeAddress : String
  rowCount : Nat
  columnCount : Nat
deriving DecidableEq, Repr

/-- The host reads `getCurrentExcelContext` performs. -/
structure HostEnv where
  worksheetInfo : HostResult WorksheetInfo
  selection : HostResult String
deriving DecidableEq, Repr

/-- The resolved context object; absent JS properties are `none`. -/
structure ExcelContext where
  worksheetName : String
  usedRange : Option String
  rowCount : Option Nat
  columnCount : Option Nat
  hasSelection : Bool
  selectedRange : Option String
  error : Option String
deriving DecidableEq, Repr

/-- Source `getCurrentExcelContext()`: always resolves.  A failure of the
worksheet/used-range load resolves a context of worksheetName
`Unknown` carrying the error message; the selection lookup failure is swallowed by the
inner empty catch, leaving `hasSelection: false` and no
`selectedRange`. -/
def getCurrentExcelContext (env : HostEnv) : ExcelContext :=
  match env.worksheetInfo with
  | .failed message =>
    { worksheetName := "Unknown", usedRange := none, rowCount := none, columnCount := none,
      hasSelection := false, selectedRange := none, error := some message }
  | .ok info =>
    let contextInfo : ExcelContext :=
      { worksheetName := info.name, usedRange := some info.usedRangeAddress,
        rowCount := some info.rowCount, columnCount := some info.columnCount,
        hasSelection := false, selectedRange := none, error := none }
    match env.selection with
    | .failed _ => contextInfo
    | .ok address => { contextInfo with hasSelection := true, selectedRange := some address }

/-! ## Settings persistence (taskpane.js lines 666-713)

`localStorage` holds a JSON blob under `lyncformula-settings`; the
blob is modelled structurally (serialisation is the host's
`JSON.stringify`/`JSON.parse` round trip). -/

/-- The persisted settings blob. -/
structure Settings where
  serviceUrl : String
  llmModel : String
  autoBackup : Bool
deriving DecidableEq, Repr

/-- The state the settings code touches: the stored blob, the
module-global `serviceUrl` every request is sent to, and the three
settings-panel DOM fields. -/
structure SettingsState where
  stored : Option Settings
  serviceUrl : String
  fieldServiceUrl : String
  fieldLlmModel : String
  fieldAutoBackup : Bool
deriving DecidableEq, Repr

/-- Source `saveSettings()`: read the three DOM fields, store the blob, and
update the global `serviceUrl`.  (The subsequent re-check of the
connection, panel hide and notification are I/O outside this
state.) -/
def saveSettings (st : SettingsState) : SettingsState :=
  let settings : Settings := ⟨st.fieldServiceUrl, st.fieldLlmModel, st.fieldAutoBackup⟩
  { st with stored := some settings, serviceUrl := settings.serviceUrl }

/-- Source `loadSettings()`: with no stored blob, leave everything as is.
Otherwise apply each field guarded as the source guards it —
`if (settings.serviceUrl)` and `if (settings.llmModel)` are JS
truthiness, i.e. the string being non-empty; `settings.autoBackup !==
undefined` always holds for a structurally stored blob. -/
def loadSettings (st : SettingsState) : SettingsState :=
  match st.stored with
  | none => st
  | some settings =>
    let st1 :=
      if settings.serviceUrl ≠ "" then
        { st with serviceUrl := settings.serviceUrl, fieldServiceUrl := settings.serviceUrl }
      else st
    let st2 :=
      if settings.llmModel ≠ "" then { st1 with fieldLlmModel := settings.llmModel } else st1
    { st2 with fieldAutoBackup := settings.autoBackup }

/-! ## Submit flow (taskpane.js lines 168-226)

`handleSubmitRequest` as a function of the application state it
reads/writes and the outcome of the `fetch`. -/

/-- The application state the submit handler touches. -/
structure AppState where
  inputValue : String
  selectedFiles : List SelectedFile
  operationHistory : List HistoryItem
deriving DecidableEq, Repr

/-- The outcome of the main `fetch`: a network error, a non-2xx
response (`throw` on `!response.ok`), or a parsed 2xx body. -/
inductive FetchOutcome where
  | networkError (message : String)
  | httpError (status : Nat) (statusText : String)
  | ok (result : ServiceResult)
deriving DecidableEq, Repr

/-- What one run of the submit handler leaves behind: the updated
state and the error message shown, if any. -/
structure SubmitOutcome where
  state : AppState
  shownError : Option String
deriving DecidableEq, Repr

/-- Source `handleSubmitRequest()`: an empty trimmed query aborts with an
error; a network/HTTP failure lands in the `catch` and shows
`Request failed: ...`; a 2xx body with `success: false` shows
`result.error` with an Operation-failed fallback; a 2xx body with `success: true`
renders the results, appends to history, and clears the input.  The
failure paths leave the state untouched. -/
def handleSubmitRequest (st : AppState) (now : Nat) (timestamp : String)
    (outcome : FetchOutcome) : SubmitOutcome :=
  let query := trim st.inputValue
  if query = "" then ⟨st, some "Please enter a request"⟩
  else
    match outcome with
    | .networkError message => ⟨st, some ("Request failed: " ++ message)⟩
    | .httpError status statusText =>
      ⟨st, some ("Request failed: HTTP " ++ toString status ++ ": " ++ statusText)⟩
    | .ok result =>
      if result.success then
        ⟨{ st with
            inputValue := "",
            operationHistory := addToHistory now timestamp query result st.operationHistory },
         none⟩
      else
        ⟨st, some (match result.error with
          | some e => if e = "" then "Operation failed" else e
          | none => "Operation failed")⟩

/-! ## In-flight requests (the loading flag)

The submit flow's observable loading/in-flight behaviour as a
transition system.  `start` fires whenever `handleSubmitRequest` is
invoked — the submit-button click, the quick-action clicks (lines
52-60) and the Ctrl+Enter keydown (lines 83-87) all call it directly;
none of those paths, nor the handler itself, consults the loading
flag.  The handler's only early return is the empty-query check;
otherwise it shows the loading overlay and issues the request.
`finish` is one outstanding request settling: the `finally` hides the
overlay, and a successful body clears the input. -/

/-- Loading flag, number of outstanding main-action requests, and
the input field. -/
structure SubmitFlowState where
  loading : Bool
  inFlight : Nat
  inputValue : String
deriving DecidableEq, Repr

/-- An event of the submit flow. -/
inductive SubmitFlowEvent where
  | edit (text : String)
  | start
  | finish (ok : Bool)
deriving DecidableEq, Repr

/-- One transition of the submit flow. -/
def submitFlowStep (st : SubmitFlowState) : SubmitFlowEvent → SubmitFlowState
  | .edit text => { st with inputValue := text }
  | .start =>
    if trim st.inputValue = "" then st
    else { st with loading := true, inFlight := st.inFlight + 1 }
  | .finish ok =>
    if st.inFlight = 0 then st
    else
      { loading := false, inFlight := st.inFlight - 1,
        inputValue := if ok then "" else st.inputValue }

/-- The initial state: nothing loading, empty input. -/
def initSubmitFlow : SubmitFlowState := ⟨false, 0, ""⟩

/-- The state reached by a sequence of submit-flow events. -/
def runSubmitFlow (events : List SubmitFlowEvent) : SubmitFlowState :=
  events.foldl submitFlowStep initSubmitFlow

/-! ## Observations on rendered output -/

/-- Whether a rendered element is an audit issue item. -/
def isIssueElem : RenderedElem → Bool
  | .issueItem _ _ => true
  | _ => false

/-- The totals reported by the summary boxes of a rendered panel. -/
def renderedSummaryTotals (elems : List RenderedElem) : List Nat :=
  elems.filterMap fun e =>
    match e with
    | .summaryBox total _ _ _ => some total
    | _ => none

/-! ## Concrete inputs used to instantiate the theorems -/

/-- A minimal successful response body. -/
def sampleResult : ServiceResult :=
  ⟨true, none, none, none, none, none, none, none⟩

/-- A history entry distinguished by its id. -/
def historyEntry (j : Nat) : HistoryItem :=
  ⟨j, "query", sampleResult, "ts"⟩

/-- Twenty further history additions after `historyEntry 0`. -/
def historyRest : List HistoryItem :=
  (List.range 20).map fun j => historyEntry (j + 1)

/-- Seven audit issues with mixed severities. -/
def sevenIssues : List AuditIssue :=
  (List.range 7).map fun j =>
    ⟨"Issue " ++ toString j,
     if j % 3 == 0 then "high" else if j % 3 == 1 then "medium" else "low",
     "description", "A" ++ toString j, "suggested"⟩

/-- An audit response with seven issues and a summary counting them. -/
def sevenResult : ServiceResult :=
  { success := true, error := none, explanations := none,
    issues := some sevenIssues,
    audit_summary := some ⟨some 7, some ⟨2, 3, 2⟩⟩,
    analysis_results := none, consolidated_file := none, operation_type := none }

/-! ## Auxiliary lemmas -/

/-- A string has positive length exactly when it is non-empty. -/
lemma strLength_pos_iff (s : String) : 0 < s.length ↔ s ≠ "" := by
  cases s with
  | mk d => cases d <;> simp [String.length, String.ext_iff]

/-- One history addition is a cons capped at the 20 most recent. -/
lemma addToHistory_eq_take (now : Nat) (ts q : String) (r : ServiceResult)
    (h : List HistoryItem) :
    addToHistory now ts q r h = ((⟨now, q, r, ts⟩ : HistoryItem) :: h).take 20 := by
  unfold addToHistory
  by_cases hl : ((⟨now, q, r, ts⟩ : HistoryItem) :: h).length > 20
  · simp [hl]
  · simp only [hl, if_false]
    rw [List.take_of_length_le (by omega)]

/-- Capping the tail before appending changes nothing the outer cap keeps. -/
lemma take_append_take {α : Type} (l t : List α) (n : Nat) :
    (l ++ t.take n).take n = (l ++ t).take n := by
  rw [List.take_append_eq_append_take, List.take_append_eq_append_take, List.take_take]
  congr 1
  rw [Nat.min_eq_left (Nat.sub_le n l.length)]

/-- Folding history additions from any capped start keeps the 20 most
recent, newest first. -/
lemma runHistory_from (adds : List HistoryItem) :
    ∀ h : List HistoryItem, h.length ≤ 20 →
      adds.foldl (fun acc a => addToHistory a.id a.timestamp a.query a.result acc) h
        = (adds.reverse ++ h).take 20 := by
  induction adds with
  | nil =>
    intro h hh
    simpa using (List.take_of_length_le hh).symm
  | cons a as ih =>
    intro h hh
    rw [List.foldl_cons, ih _ (by rw [addToHistory_eq_take]; simp [List.length_take])]
    rw [addToHistory_eq_take]
    rw [take_append_take]
    simp [List.append_assoc]

/-- C2 — For every sequence of history additions starting from an empty
history, the operation history equals the reversed addition sequence
capped at its 20 most recent entries (so it never exceeds 20 entries and
is ordered newest-first), and after an addition sequence of 21 entries
whose first element recurs nowhere, that first-added entry is absent. -/
theorem history_cap_newest_first (adds : List HistoryItem) :
    runHistory adds = adds.reverse.take 20 ∧
    (runHistory adds).length ≤ 20 ∧
    (∀ (a : HistoryItem) (rest : List HistoryItem),
      adds = a :: rest → rest.length = 20 → a ∉ rest → a ∉ runHistory adds) := by
  have hmain : runHistory adds = adds.reverse.take 20 := by
    unfold runHistory
    rw [runHistory_from adds [] (by simp)]
    simp
  refine ⟨hmain, ?_, ?_⟩
  · rw [hmain, List.length_take]
    omega
  · intro a rest hadds hlen hnotin
    rw [hmain, hadds]
    have hrev : (a :: rest).reverse.take 20 = rest.reverse := by
      rw [List.reverse_cons, List.take_append_eq_append_take]
      rw [List.take_of_length_le (by simp [hlen])]
      simp [hlen]
    rw [hrev]
    simpa using hnotin

/-- Witness for C2: twenty-one concrete additions; the first-added entry
is gone from the resulting history. -/
theorem history_cap_newest_first_witness :
    historyEntry 0 ∉ runHistory (historyEntry 0 :: historyRest) :=
  (history_cap_newest_first (historyEntry 0 :: historyRest)).2.2 (historyEntry 0) historyRest
    rfl (by decide) (by decide)

/-- C1 — The intent router agrees with the spec's first-match priority
order, and in particular a query containing `audit` and not `file`
(case-insensitively) routes to `/audit_formulas` with no files selected
and to `/smart_analysis` with at least one file selected. -/
theorem router_first_match (query : String) (files : List SelectedFile) :
    determineEndpoint query files = routeSpec query files ∧
    (includes (toLowerCase query) "audit" = true →
      includes (toLowerCase query) "file" = false →
      determineEndpoint query [] = "/audit_formulas" ∧
      ∀ (f : SelectedFile) (fs : List SelectedFile),
        determineEndpoint query (f :: fs) = "/smart_analysis") := by
  constructor
  · cases files <;> simp [determineEndpoint, routeSpec]
  · intro h1 h2
    constructor
    · simp [determineEndpoint, h1, h2]
    · intro f fs
      simp [determineEndpoint, h1]

/-- Witness for C1: the routing of `Please audit this sheet` without and
with a selected file. -/
theorem router_first_match_witness :
    determineEndpoint "Please audit this sheet" [] = "/audit_formulas" ∧
    determineEndpoint "Please audit this sheet" [⟨"Q1_Sales.xlsx", "C:\\Reports\\Q1_Sales.xlsx"⟩]
      = "/smart_analysis" := by
  have h := (router_first_match "Please audit this sheet" []).2 (by decide) (by decide)
  exact ⟨h.1, h.2 _ []⟩

/-- Adding a file only when its path is unseen preserves pairwise
distinctness of paths. -/
lemma addFileIfNew_pairwise {files : List SelectedFile} {file : SelectedFile}
    (h : List.Pairwise (fun a b : SelectedFile => a.path ≠ b.path) files) :
    List.Pairwise (fun a b : SelectedFile => a.path ≠ b.path) (addFileIfNew files file) := by
  by_cases hany : files.any (fun f => f.path == file.path)
  · simpa [addFileIfNew, hany] using h
  · unfold addFileIfNew
    rw [if_neg hany]
    rw [List.pairwise_append]
    refine ⟨h, List.pairwise_singleton _ _, ?_⟩
    intro a ha b hb
    simp only [List.mem_singleton] at hb
    subst hb
    simp only [List.any_eq_true, beq_iff_eq, not_exists, not_and] at hany
    exact fun hp => hany a ha hp

/-- The mocked browse (a fold of conditional adds) preserves pairwise
distinctness of paths. -/
lemma foldl_addFileIfNew_pairwise (l : List SelectedFile) :
    ∀ files, List.Pairwise (fun a b : SelectedFile => a.path ≠ b.path) files →
      List.Pairwise (fun a b : SelectedFile => a.path ≠ b.path) (l.foldl addFileIfNew files) := by
  induction l with
  | nil => intro files h; exact h
  | cons a as ih => intro files h; exact ih _ (addFileIfNew_pairwise h)

/-- Every file-selection action preserves pairwise distinctness of paths. -/
lemma fileStep_pairwise (e : FileEvent) {files : List SelectedFile}
    (h : List.Pairwise (fun a b : SelectedFile => a.path ≠ b.path) files) :
    List.Pairwise (fun a b : SelectedFile => a.path ≠ b.path) (fileStep files e) := by
  cases e with
  | browse => exact foldl_addFileIfNew_pairwise _ _ h
  | remove index => exact List.Pairwise.sublist (List.eraseIdx_sublist files index) h

/-- C6 — After any sequence of browse and remove operations starting
from the empty selection, the selected-files list (an ordered list of
name/path pairs) never holds two entries with the same path. -/
theorem selected_paths_distinct (events : List FileEvent) :
    List.Pairwise (fun a b : SelectedFile => a.path ≠ b.path) (runFileEvents events) := by
  unfold runFileEvents
  have h : ∀ (evs : List FileEvent) (files : List SelectedFile),
      List.Pairwise (fun a b : SelectedFile => a.path ≠ b.path) files →
      List.Pairwise (fun a b : SelectedFile => a.path ≠ b.path) (evs.foldl fileStep files) := by
    intro evs
    induction evs with
    | nil => intro files hf; exact hf
    | cons e es ih => intro files hf; exact ih _ (fileStep_pairwise e hf)
  exact h events [] List.Pairwise.nil

/-- Witness for C6: browsing twice and removing an entry leaves three
and then two distinct paths. -/
theorem selected_paths_distinct_witness :
    List.Pairwise (fun a b : SelectedFile => a.path ≠ b.path)
      (runFileEvents [FileEvent.browse, FileEvent.browse, FileEvent.remove 0]) :=
  selected_paths_distinct [FileEvent.browse, FileEvent.browse, FileEvent.remove 0]

/-- The audit renderer, unconditionally: heading, summary box, then one
item per issue of the first five. -/
lemma showAuditResults_eq (s : Option AuditSummary) (issues : List AuditIssue) :
    showAuditResults s issues =
      [RenderedElem.header "Formula Audit Results",
       RenderedElem.summaryBox ((s.bind AuditSummary.total_issues).getD 0)
         (((s.bind AuditSummary.severity_breakdown).map SeverityBreakdown.high).getD 0)
         (((s.bind AuditSummary.severity_breakdown).map SeverityBreakdown.medium).getD 0)
         (((s.bind AuditSummary.severity_breakdown).map SeverityBreakdown.low).getD 0)] ++
      (issues.take 5).map (fun i => RenderedElem.issueItem (issueClass i.severity) i) := by
  unfold showAuditResults
  cases issues <;> simp

/-- Issue items are exactly what the issue-item filter keeps. -/
lemma filter_isIssueElem_map (l : List AuditIssue) :
    (l.map (fun i => RenderedElem.issueItem (issueClass i.severity) i)).filter isIssueElem
      = l.map (fun i => RenderedElem.issueItem (issueClass i.severity) i) := by
  induction l with
  | nil => rfl
  | cons a as ih => simp [isIssueElem, ih]

/-- Issue items report no summary totals. -/
lemma summaryTotals_map_issueItem (l : List AuditIssue) :
    renderedSummaryTotals (l.map (fun i => RenderedElem.issueItem (issueClass i.severity) i))
      = [] := by
  induction l with
  | nil => rfl
  | cons a as ih => simp [renderedSummaryTotals] at ih ⊢

/-- C4 — Rendering an audit response shows at most the first 5 issues
as issue items, each styled by its severity, while the summary box
reports the total issue count the response carries; in particular the
seven-issue response renders exactly 5 issue items and a summary count
of 7. -/
theorem audit_render_caps (s : Option AuditSummary) (issues : List AuditIssue) :
    ((showAuditResults s issues).filter isIssueElem).length = min issues.length 5 ∧
    ((showAuditResults s issues).filter isIssueElem).length ≤ 5 ∧
    ((showAuditResults s issues).filter isIssueElem
      = (issues.take 5).map (fun i => RenderedElem.issueItem (issueClass i.severity) i)) ∧
    renderedSummaryTotals (showAuditResults s issues)
      = [(s.bind AuditSummary.total_issues).getD 0] ∧
    (∀ r : ServiceResult, r.explanations = none → r.issues = some issues →
      showResults r = showAuditResults r.audit_summary issues) ∧
    ((showResults sevenResult).filter isIssueElem).length = 5 ∧
    renderedSummaryTotals (showResults sevenResult) = [7] := by
  have hfilter : (showAuditResults s issues).filter isIssueElem
      = (issues.take 5).map (fun i => RenderedElem.issueItem (issueClass i.severity) i) := by
    rw [showAuditResults_eq, List.filter_append, filter_isIssueElem_map]
    simp [isIssueElem]
  refine ⟨?_, ?_, hfilter, ?_, ?_, by decide, by decide⟩
  · rw [hfilter, List.length_map, List.length_take]
    omega
  · rw [hfilter, List.length_map, List.length_take]
    omega
  · rw [showAuditResults_eq]
    have h2 := summaryTotals_map_issueItem (issues.take 5)
    unfold renderedSummaryTotals at h2 ⊢
    rw [List.filterMap_append, h2]
    rfl
  · intro r h1 h2
    simp [showResults, h1, h2]

/-- Witness for C4: the seven-issue response renders 5 issue items and
a summary count of 7. -/
theorem audit_render_caps_witness :
    ((showResults sevenResult).filter isIssueElem).length = 5 ∧
    renderedSummaryTotals (showResults sevenResult) = [7] :=
  ⟨(audit_render_caps none []).2.2.2.2.2.1, (audit_render_caps none []).2.2.2.2.2.2⟩

/-- Counterexample to C3 as stated: with a non-empty input, invoking the
submit handler twice before either request settles reaches a state with
two main-action requests in flight, so "at most one request in flight in
every reachable state" is false. -/
theorem inflight_two_reachable :
    ¬ (∀ events : List SubmitFlowEvent, (runSubmitFlow events).inFlight ≤ 1) := by
  intro h
  have h1 := h [SubmitFlowEvent.edit "audit the sheet", SubmitFlowEvent.start,
    SubmitFlowEvent.start]
  have h2 : (runSubmitFlow [SubmitFlowEvent.edit "audit the sheet", SubmitFlowEvent.start,
      SubmitFlowEvent.start]).inFlight = 2 := by decide
  omega

/-- C3 as amended — While a request is outstanding the loading overlay
is shown, but further submission is not blocked: starting a submission
depends only on the trimmed input being non-empty, never on the loading
flag, so a state with two requests in flight is reachable. -/
theorem submit_start_ignores_loading (st : SubmitFlowState) :
    (trim st.inputValue ≠ "" →
      submitFlowStep st SubmitFlowEvent.start
        = { st with loading := true, inFlight := st.inFlight + 1 }) ∧
    (trim st.inputValue = "" → submitFlowStep st SubmitFlowEvent.start = st) ∧
    (runSubmitFlow [SubmitFlowEvent.edit "audit the sheet", SubmitFlowEvent.start]).loading
      = true ∧
    (runSubmitFlow [SubmitFlowEvent.edit "audit the sheet", SubmitFlowEvent.start,
      SubmitFlowEvent.start]).inFlight = 2 := by
  refine ⟨?_, ?_, by decide, by decide⟩
  · intro h
    simp [submitFlowStep, h]
  · intro h
    simp [submitFlowStep, h]

/-- Witness for the amended C3: from a state already loading with one
request outstanding, a second start goes through and leaves two in
flight. -/
theorem submit_start_ignores_loading_witness :
    submitFlowStep ⟨true, 1, "audit"⟩ SubmitFlowEvent.start = ⟨true, 2, "audit"⟩ :=
  (submit_start_ignores_loading ⟨true, 1, "audit"⟩).1 (by decide)

/-- With both guarded fields truthy, a stored blob is applied in full. -/
lemma loadSettings_stored (st : SettingsState) (s : Settings)
    (h : st.stored = some s) (h1 : s.serviceUrl ≠ "") (h2 : s.llmModel ≠ "") :
    loadSettings st =
      { st with
        serviceUrl := s.serviceUrl, fieldServiceUrl := s.serviceUrl,
        fieldLlmModel := s.llmModel, fieldAutoBackup := s.autoBackup } := by
  unfold loadSettings
  rw [h]
  simp [h1, h2]

/-- C5 — Saving `{serviceUrl: "http://x", llmModel: "m", autoBackup:
true}` stores exactly that blob and makes `http://x` the active service
URL, and reloading from any state holding that blob restores all three
field values and the active URL. -/
theorem settings_roundtrip (st : SettingsState) :
    ((saveSettings { st with
        fieldServiceUrl := "http://x", fieldLlmModel := "m",
        fieldAutoBackup := true }).stored = some ⟨"http://x", "m", true⟩) ∧
    ((saveSettings { st with
        fieldServiceUrl := "http://x", fieldLlmModel := "m",
        fieldAutoBackup := true }).serviceUrl = "http://x") ∧
    (∀ st2 : SettingsState, st2.stored = some ⟨"http://x", "m", true⟩ →
      (loadSettings st2).fieldServiceUrl = "http://x" ∧
      (loadSettings st2).fieldLlmModel = "m" ∧
      (loadSettings st2).fieldAutoBackup = true ∧
      (loadSettings st2).serviceUrl = "http://x") ∧
    ((loadSettings (saveSettings { st with
        fieldServiceUrl := "http://x", fieldLlmModel := "m",
        fieldAutoBackup := true })).fieldServiceUrl = "http://x" ∧
      (loadSettings (saveSettings { st with
        fieldServiceUrl := "http://x", fieldLlmModel := "m",
        fieldAutoBackup := true })).fieldLlmModel = "m" ∧
      (loadSettings (saveSettings { st with
        fieldServiceUrl := "http://x", fieldLlmModel := "m",
        fieldAutoBackup := true })).fieldAutoBackup = true ∧
      (loadSettings (saveSettings { st with
        fieldServiceUrl := "http://x", fieldLlmModel := "m",
        fieldAutoBackup := true })).serviceUrl = "http://x") := by
  have hload : ∀ st2 : SettingsState, st2.stored = some ⟨"http://x", "m", true⟩ →
      (loadSettings st2).fieldServiceUrl = "http://x" ∧
      (loadSettings st2).fieldLlmModel = "m" ∧
      (loadSettings st2).fieldAutoBackup = true ∧
      (loadSettings st2).serviceUrl = "http://x" := by
    intro st2 h2
    rw [loadSettings_stored st2 ⟨"http://x", "m", true⟩ h2 (by decide) (by decide)]
    exact ⟨rfl, rfl, rfl, rfl⟩
  refine ⟨rfl, rfl, hload, ?_⟩
  exact hload _ rfl

/-- Witness for C5: the round trip from a blank state. -/
theorem settings_roundtrip_witness :
    (loadSettings (saveSettings
      ⟨none, "http://127.0.0.1:8700", "http://x", "m", true⟩)).serviceUrl = "http://x" :=
  ((settings_roundtrip ⟨none, "http://127.0.0.1:8700", "http://x", "m", true⟩).2.2.2).2.2.2

/-- C7 — A successful response clears the input and prepends the
operation (trimmed query plus result) to the history; a network error, a
non-2xx response or a `success: false` body leaves the input and the
history untouched. -/
theorem submit_success_clears_failure_preserves (st : AppState) (now : Nat) (ts : String) :
    (∀ result : ServiceResult, trim st.inputValue ≠ "" → result.success = true →
      handleSubmitRequest st now ts (FetchOutcome.ok result)
        = ⟨{ st with
            inputValue := "",
            operationHistory :=
              addToHistory now ts (trim st.inputValue) result st.operationHistory },
          none⟩) ∧
    (∀ result : ServiceResult, result.success = false →
      (handleSubmitRequest st now ts (FetchOutcome.ok result)).state = st) ∧
    (∀ message, (handleSubmitRequest st now ts (FetchOutcome.networkError message)).state = st) ∧
    (∀ status text,
      (handleSubmitRequest st now ts (FetchOutcome.httpError status text)).state = st) := by
  refine ⟨?_, ?_, ?_, ?_⟩
  · intro result h1 h2
    simp [handleSubmitRequest, h1, h2]
  · intro result h2
    by_cases h : trim st.inputValue = "" <;> simp [handleSubmitRequest, h, h2]
  · intro message
    by_cases h : trim st.inputValue = "" <;> simp [handleSubmitRequest, h]
  · intro status text
    by_cases h : trim st.inputValue = "" <;> simp [handleSubmitRequest, h]

/-- Witness for C7: a concrete successful submission clears the input
and records the operation; a concrete failed one changes nothing. -/
theorem submit_success_clears_failure_preserves_witness :
    handleSubmitRequest ⟨" fix this ", [], []⟩ 5 "t" (FetchOutcome.ok sampleResult)
      = ⟨⟨"", [], [⟨5, "fix this", sampleResult, "t"⟩]⟩, none⟩ ∧
    (handleSubmitRequest ⟨" fix this ", [], []⟩ 5 "t" (FetchOutcome.networkError "down")).state
      = ⟨" fix this ", [], []⟩ := by
  have h := submit_success_clears_failure_preserves ⟨" fix this ", [], []⟩ 5 "t"
  exact ⟨by rw [h.1 sampleResult (by decide) rfl]; decide, h.2.2.1 "down"⟩

/-- C8 — A 2xx health response sets the status to connected with the
text `Connected to ${service} v${version}` (so `{service: "X", version:
"1.0"}` reads exactly `Connected to X v1.0`); any failure sets the
status to error and disables the submit control; and `validateInput`
enables the submit control exactly when the status is connected and the
trimmed input is non-empty. -/
theorem health_status_enablement (st : UIConn) :
    (checkServiceConnection st (HealthOutcome.ok "X" "1.0")).statusText
      = "Connected to X v1.0" ∧
    (∀ service version,
      (checkServiceConnection st (HealthOutcome.ok service version)).connectionStatus
        = ConnStatus.connected ∧
      (checkServiceConnection st (HealthOutcome.ok service version)).statusText
        = "Connected to " ++ service ++ " v" ++ version) ∧
    (∀ status,
      (checkServiceConnection st (HealthOutcome.httpError status)).connectionStatus
        = ConnStatus.error ∧
      (checkServiceConnection st (HealthOutcome.httpError status)).submitDisabled = true) ∧
    (∀ message,
      (checkServiceConnection st (HealthOutcome.networkError message)).connectionStatus
        = ConnStatus.error ∧
      (checkServiceConnection st (HealthOutcome.networkError message)).submitDisabled = true) ∧
    ((validateInput st).submitDisabled = false ↔
      (st.connectionStatus = ConnStatus.connected ∧ trim st.inputValue ≠ "")) := by
  refine ⟨?_, fun service version => ⟨rfl, rfl⟩, fun status => ⟨rfl, rfl⟩,
    fun message => ⟨rfl, rfl⟩, ?_⟩
  · show ("Connected to " ++ "X" ++ " v" ++ "1.0" : String) = "Connected to X v1.0"
    decide
  · have hlen := strLength_pos_iff (trim st.inputValue)
    by_cases hi : trim st.inputValue = ""
    · have : ¬ 0 < (trim st.inputValue).length := by
        rw [hlen]
        simpa using hi
      simp [validateInput, this, hi]
    · have hpos : 0 < (trim st.inputValue).length := hlen.mpr hi
      cases hc : st.connectionStatus <;>
        simp [validateInput, hpos, hc, hi] <;> decide

/-- Witness for C8: the concrete health body, and enablement with a
non-empty input. -/
theorem health_status_enablement_witness :
    (checkServiceConnection ⟨ConnStatus.connecting, "", true, "audit"⟩
      (HealthOutcome.ok "X" "1.0")).statusText = "Connected to X v1.0" ∧
    (validateInput ⟨ConnStatus.connected, "", true, "audit"⟩).submitDisabled = false := by
  refine ⟨(health_status_enablement ⟨ConnStatus.connecting, "", true, "audit"⟩).1, ?_⟩
  exact (health_status_enablement ⟨ConnStatus.connected, "", true, "audit"⟩).2.2.2.2.mpr
    ⟨rfl, by decide⟩

/-- C9 — When the worksheet loads succeed and the selection lookup
fails, the snapshot is still produced: `hasSelection` is `false`, no
`selectedRange` is set, and no error is recorded or surfaced. -/
theorem selection_failure_swallowed (env : HostEnv) (info : WorksheetInfo) (message : String)
    (h1 : env.worksheetInfo = HostResult.ok info)
    (h2 : env.selection = HostResult.failed message) :
    getCurrentExcelContext env =
      { worksheetName := info.name, usedRange := some info.usedRangeAddress,
        rowCount := some info.rowCount, columnCount := some info.columnCount,
        hasSelection := false, selectedRange := none, error := none } := by
  unfold getCurrentExcelContext
  rw [h1, h2]

/-- Witness for C9: a concrete host environment whose selection lookup
throws. -/
theorem selection_failure_swallowed_witness :
    getCurrentExcelContext ⟨HostResult.ok ⟨"Sheet1", "A1:B2", 2, 2⟩,
        HostResult.failed "no selection"⟩
      = ⟨"Sheet1", some "A1:B2", some 2, some 2, false, none, none⟩ :=
  selection_failure_swallowed ⟨HostResult.ok ⟨"Sheet1", "A1:B2", 2, 2⟩,
    HostResult.failed "no selection"⟩ ⟨"Sheet1", "A1:B2", 2, 2⟩ "no selection" rfl rfl

/-- C10 — The context builder is total (it always resolves to a context
object, for every outcome of the host calls), and when the worksheet
load fails it resolves with `worksheetName: "Unknown"` and the failure
message in `error` rather than rejecting. -/
theorem context_total_degraded (env : HostEnv) :
    (∃ ctx : ExcelContext, getCurrentExcelContext env = ctx) ∧
    (∀ message, env.worksheetInfo = HostResult.failed message →
      getCurrentExcelContext env =
        { worksheetName := "Unknown", usedRange := none, rowCount := none, columnCount := none,
          hasSelection := false, selectedRange := none, error := some message }) := by
  refine ⟨⟨getCurrentExcelContext env, rfl⟩, ?_⟩
  intro message h
  unfold getCurrentExcelContext
  rw [h]

/-- Witness for C10: a concrete worksheet-load failure yields the
degraded context. -/
theorem context_total_degraded_witness :
    getCurrentExcelContext ⟨HostResult.failed "sync failed", HostResult.ok "A1"⟩
      = ⟨"Unknown", none, none, none, false, none, some "sync failed"⟩ :=
  (context_total_degraded ⟨HostResult.failed "sync failed", HostResult.ok "A1"⟩).2
    "sync failed" rfl

end LyncFormula
